/-
Verification of the conversion routing and normalization core of the
FreeCAD Engineering Toolkit (ConverterBridge module).

The Python sources are shallowly embedded: pure path/string manipulation is
translated directly; filesystem state, subprocess execution and the CAD
kernel are oracles passed as explicit parameters (a `Bool`-valued existence
predicate for the filesystem, a `RunOutcome` value for each subprocess
invocation, a success predicate for `Part.makeSolid`).  Every adapter also
returns the list of subprocess invocations it performed (command vector and
timeout), and the orchestrator returns the list of backend `convert` calls
it made, so that temporal claims ("convert is never invoked", "timeout is
bounded") become statements about these logs.
-/
import Mathlib

/-- ASCII lower-casing of one character, as Python `str.lower` acts on the
ASCII extensions this module handles. -/
def lowerChar (c : Char) : Char :=
  if 65 ≤ c.toNat ∧ c.toNat ≤ 90 then Char.ofNat (c.toNat + 32) else c

/-- ASCII upper-casing of one character (Python `str.upper`). -/
def upperChar (c : Char) : Char :=
  if 97 ≤ c.toNat ∧ c.toNat ≤ 122 then Char.ofNat (c.toNat - 32) else c

/-- Python `str.lower` on the ASCII strings this module handles. -/
def lowerString (s : String) : String :=
  String.mk (s.toList.map lowerChar)

/-- Python `str.upper` on the ASCII strings this module handles. -/
def upperString (s : String) : String :=
  String.mk (s.toList.map upperChar)

/-- Characters of the final path component: everything after the last
`/` or `\` separator, mirroring `os.path.basename`. -/
def basenameChars (cs : List Char) : List Char :=
  cs.foldl (fun acc c => if c = '/' ∨ c = '\\' then [] else acc ++ [c]) []

/-- The suffix of a character list starting at its last `.`, or `[]` when
no dot occurs.  Helper for `os.path.splitext`. -/
def suffixFromLastDot : List Char → List Char
  | [] => []
  | c :: t =>
    let r := suffixFromLastDot t
    if r.isEmpty then (if c = '.' then c :: t else []) else r

/-- Python `os.path.basename`. -/
def basenameOf (p : String) : String :=
  String.mk (basenameChars p.toList)

/-- The extension part of `os.path.splitext`: the last-dot suffix of the
final path component, where leading dots of the component do not count. -/
def splitextExt (p : String) : String :=
  let base := basenameChars p.toList
  let lead := (base.takeWhile (fun c => c = '.')).length
  let rest := base.drop lead
  String.mk (suffixFromLastDot rest)

/-- Python `os.path.splitext(os.path.basename(p))[0]`: the final path component
with its extension removed. -/
def stemOf (p : String) : String :=
  let base := basenameChars p.toList
  let lead := (base.takeWhile (fun c => c = '.')).length
  let rest := base.drop lead
  let ext := suffixFromLastDot rest
  String.mk (base.take (base.length - ext.length))

/-- Python `os.path.dirname`: the path up to (not including) the last separator,
empty when there is none. -/
def dirnameOf (p : String) : String :=
  let cs := p.toList
  let base := basenameChars cs
  if base.length = cs.length then ""
  else String.mk (cs.take (cs.length - base.length - 1))

/-- The static extension-to-handler table `FORMAT_HANDLERS` from
`UniversalConverter.py` (an association list; the Python dict has no
duplicate keys). -/
def FORMAT_HANDLERS : List (String × String) :=
  [ (".step", "freecad"), (".stp", "freecad"),
    (".iges", "freecad"), (".igs", "freecad"),
    (".brep", "freecad"), (".brp", "freecad"),
    (".stl", "freecad"),
    (".obj", "freecad"),
    (".fbx", "blender"),
    (".gltf", "blender"), (".glb", "blender"),
    (".dae", "blender"),
    (".3ds", "blender"),
    (".ply", "blender"),
    (".usd", "blender"), (".usda", "blender"), (".usdc", "blender"),
    (".abc", "blender"),
    (".svg", "blender"),
    (".x3d", "blender"),
    (".wrl", "blender"),
    (".blend", "blender"),
    (".dwg", "oda"),
    (".dxf", "oda"),
    (".x_t", "online"), (".x_b", "online"),
    (".xmt_txt", "online"), (".xmt_bin", "online"),
    (".catpart", "online"), (".catproduct", "online"),
    (".prt", "online"),
    (".asm", "online"),
    (".sldprt", "online"), (".sldasm", "online"),
    (".ipt", "online"), (".iam", "online"),
    (".jt", "online"),
    (".sat", "online"), (".sab", "online") ]

/-- Python `FORMAT_HANDLERS.get(ext, "unknown")`: the classifier as a function of
the (already lower-cased) extension. -/
def classify (ext : String) : String :=
  (List.lookup ext FORMAT_HANDLERS).getD "unknown"

/-- Method `UniversalConverter.get_handler`: extract the extension of the path,
lower-case it, and look it up in the static table. -/
def get_handler (file_path : String) : String :=
  classify (lowerString (splitextExt file_path))

/-- Outcome of one `subprocess.run` call, as seen by the caller: the exit
status, whether `TimeoutExpired` was raised, and whether some other
exception was raised. -/
structure RunOutcome where
  returncode : Int
  timedOut : Bool
  raised : Bool
  deriving DecidableEq, Repr

/-- One logged subprocess invocation: the command vector and the
`timeout` argument (seconds) passed to `subprocess.run`. -/
structure Invocation where
  cmd : List String
  timeoutSeconds : Nat
  deriving DecidableEq, Repr

/-- The deterministic Blender scratch output path:
the temp directory joined with the input stem, the `_converted.` marker
and the output format. -/
def blenderOutputPath (tmpdir input_file output_format : String) : String :=
  tmpdir ++ "/" ++ stemOf input_file ++ "_converted." ++ output_format

/-- Method `BlenderConverter.convert` from `UniversalConverter.py`.

Oracles: `available` is the result of `is_available()` (existence of the
Blender executable), `run` the outcome of the single `subprocess.run`
call, `existsAfter` the filesystem existence predicate after the run.
Returns the Python return value (converted path or `None`) together with
the log of subprocess invocations performed. -/
def BlenderConverter.convert (blender_path script_path tmpdir : String)
    (available : Bool) (run : RunOutcome) (existsAfter : String → Bool)
    (input_file : String) (output_format : String := "stl") :
    Option String × List Invocation :=
  if available then
    let output_file := blenderOutputPath tmpdir input_file output_format
    let cmd := [blender_path, "--background", "--python", script_path, "--",
                input_file, output_file, upperString output_format]
    let inv : Invocation := ⟨cmd, 300⟩
    if run.timedOut then (none, [inv])
    else if run.raised then (none, [inv])
    else if run.returncode = 0 ∧ existsAfter output_file = true then
      (some output_file, [inv])
    else (none, [inv])
  else (none, [])

/-- The scratch directory created by `tempfile.mkdtemp` with the `oda_convert_` name prefix
on its `seq`-th call: a fresh directory per invocation. -/
def odaScratchDir (seq : Nat) : String :=
  "/tmp/oda_convert_" ++ toString seq

/-- The ODA output path: the scratch directory joined with the input stem,
a dot and the lower-cased output format. -/
def odaOutputPath (seq : Nat) (input_file output_format : String) : String :=
  odaScratchDir seq ++ "/" ++ stemOf input_file ++ "." ++ lowerString output_format

/-- Method `ODAConverter.convert` from `UniversalConverter.py`.

`seq` numbers the `tempfile.mkdtemp` call so that each invocation gets a
fresh scratch directory, as in the source.  Note the source checks only
`os.path.exists(output_file)` after the run; the exit status is never
examined. -/
def ODAConverter.convert (oda_path : String) (available : Bool)
    (run : RunOutcome) (existsAfter : String → Bool) (seq : Nat)
    (input_file : String) (output_format : String := "dxf") :
    Option String × List Invocation :=
  if available then
    let input_dir := dirnameOf input_file
    let output_dir := odaScratchDir seq
    let out_type := if lowerString output_format = "dxf" then "DXF" else "DWG"
    let cmd := [oda_path, input_dir, output_dir, "ACAD2018", out_type,
                "0", "1", basenameOf input_file]
    let inv : Invocation := ⟨cmd, 120⟩
    if run.timedOut then (none, [inv])
    else if run.raised then (none, [inv])
    else
      let output_file := odaOutputPath seq input_file output_format
      if existsAfter output_file = true then (some output_file, [inv])
      else (none, [inv])
  else (none, [])

/-- Replace every non-overlapping occurrence of `pat` in the remaining
characters, left to right; `fuel` bounds the recursion (callers pass the
input length, enough since each step consumes at least one character for
the nonempty patterns used here). -/
def replaceAllAux (pat rep : List Char) : Nat → List Char → List Char
  | _, [] => []
  | 0, s => s
  | fuel + 1, c :: t =>
    if (c :: t).take pat.length = pat then
      rep ++ replaceAllAux pat rep fuel ((c :: t).drop pat.length)
    else
      c :: replaceAllAux pat rep fuel t

/-- Python `str.replace` for a nonempty pattern (the only use in the
source replaces `.x_t` with `.step`). -/
def replaceAll (s pat rep : String) : String :=
  if pat = "" then s
  else String.mk (replaceAllAux pat.toList rep.toList s.toList.length s.toList)

/-- The hard-coded CAD Exchanger candidate executable paths from
`ParasolidConverter.convert_via_external_tool`. -/
def cad_exchanger_paths : List String :=
  ["C:\\Program Files\\CAD Exchanger\\ExchangerConv.exe",
   "C:\\Program Files (x86)\\CAD Exchanger\\ExchangerConv.exe"]

/-- The loop body of `ParasolidConverter.convert_via_external_tool`: try
each candidate tool path in order; a raised or timed-out run, or a run
after which the expected output is absent, falls through to the next
candidate. -/
def ParasolidConverter.tryTools (toolExists : String → Bool)
    (run : String → RunOutcome) (existsAfter : String → Bool)
    (input_file : String) : List String → Option String × List Invocation
  | [] => (none, [])
  | p :: rest =>
    if toolExists p then
      let output_file := replaceAll input_file ".x_t" ".step"
      let inv : Invocation := ⟨[p, input_file, output_file], 120⟩
      if (run p).timedOut ∨ (run p).raised = true then
        let r := ParasolidConverter.tryTools toolExists run existsAfter input_file rest
        (r.1, inv :: r.2)
      else if existsAfter output_file = true then (some output_file, [inv])
      else
        let r := ParasolidConverter.tryTools toolExists run existsAfter input_file rest
        (r.1, inv :: r.2)
    else ParasolidConverter.tryTools toolExists run existsAfter input_file rest

/-- Method `ParasolidConverter.convert_via_external_tool` from
`ParasolidConverter.py`. -/
def ParasolidConverter.convert_via_external_tool (toolExists : String → Bool)
    (run : String → RunOutcome) (existsAfter : String → Bool)
    (input_file : String) : Option String × List Invocation :=
  ParasolidConverter.tryTools toolExists run existsAfter input_file
    cad_exchanger_paths

/-- Symbolic CAD shapes, recording the kernel operations applied: a shape
built by `Part.Shape().makeShapeFromMesh(topology, tolerance)` and the
result of `sewShape()` on a shape.  `meshId` identifies the source mesh
topology, which is opaque to this core. -/
inductive Shape where
  | fromMesh (tolerance : ℚ) (meshId : Nat)
  | sewn (s : Shape)
  deriving DecidableEq, Repr

/-- Whether a sewing pass has been applied to the shape. -/
def Shape.isSewn : Shape → Bool
  | .sewn _ => true
  | _ => false

/-- Result of mesh-to-solid promotion: the solid built by `Part.makeSolid`
from the classified shape, or that shape itself as a degraded shell. -/
inductive PromotionResult where
  | solid (classified : Shape)
  | shell (classified : Shape)
  deriving DecidableEq, Repr

/-- The shape on which `Part.makeSolid` was attempted. -/
def PromotionResult.classifiedShape : PromotionResult → Shape
  | .solid s => s
  | .shell s => s

/-- Method `STLToSolidCommand.convert_mesh_to_solid` from `ConverterCommands.py`
(the geometry pipeline; document bookkeeping and console output elided).

Oracles: `importOk` — `Mesh.insert` succeeded and a `Mesh::Feature` was
found; `fromMeshOk` — `makeShapeFromMesh` did not raise; `sewOk` —
`sewShape` did not raise; `makeSolidOk` — whether `Part.makeSolid`
succeeds on a given shape.  A raise anywhere but `Part.makeSolid` is
caught by the outer handler, which returns `None`; a `Part.makeSolid`
failure is caught by the inner handler, which keeps the unsolidified
shape (`solid = shape`). -/
def STLToSolidCommand.convert_mesh_to_solid
    (importOk fromMeshOk sewOk : Bool) (makeSolidOk : Shape → Bool)
    (meshId : Nat) (tolerance : ℚ := 1/10) (sewing : Bool := true) :
    Option PromotionResult :=
  if importOk then
    if fromMeshOk then
      let shape := Shape.fromMesh tolerance meshId
      if sewing then
        if sewOk then
          let shape := Shape.sewn shape
          if makeSolidOk shape then some (.solid shape) else some (.shell shape)
        else none
      else
        if makeSolidOk shape then some (.solid shape) else some (.shell shape)
    else none
  else none

/-- Method `UniversalConverter._convert_mesh_to_solid` from
`UniversalConverter.py`, for one `Mesh::Feature` object: tolerance fixed
at `0.1`, sewing unconditional, `Part.makeSolid` failure degraded to the
sewn shape; any other raise is caught per object (`None` here). -/
def UniversalConverter.mesh_to_solid_step (fromMeshOk sewOk : Bool)
    (makeSolidOk : Shape → Bool) (meshId : Nat) : Option PromotionResult :=
  if fromMeshOk then
    if sewOk then
      let shape := Shape.sewn (Shape.fromMesh (1/10) meshId)
      if makeSolidOk shape then some (.solid shape) else some (.shell shape)
    else none
  else none

/-- The range the tolerance spin box of the advanced dialog enforces:
`self.tolerance_spin.setRange(0.001, 10.0)` — a `QDoubleSpinBox` clamps
every value into its range. -/
def tolerance_spin_clamp (x : ℚ) : ℚ :=
  max (1/1000) (min 10 x)

/-- One backend `convert` call made by the orchestrator, with the output
format it requested. -/
inductive Call where
  | blenderConvert (input_file output_format : String)
  | odaConvert (input_file output_format : String)
  deriving DecidableEq, Repr

/-- Result of `UniversalConverter.convert`: the returned path (or `None`),
whether the manual online-conversion instructions were produced, and the
log of backend `convert` calls made. -/
structure OrchestratorResult where
  result : Option String
  manualInstructions : Bool
  calls : List Call
  deriving DecidableEq, Repr

/-- Method `UniversalConverter.convert` from `UniversalConverter.py`.

Oracles: `fileExists` — `os.path.exists(input_file)`; `blenderAvail`,
`odaAvail` — each `is_available()` result; `blenderResult`,
`odaResult` — what the corresponding adapter `convert` call returns if
made.  Routing follows the source: `freecad` returns the input directly;
`blender` converts to STL when available; `oda` converts to DXF when
available and falls back to Blender-to-STL for `.dxf` inputs; `online`
prints the manual instructions and returns `None`; anything else fails. -/
def UniversalConverter.route (blenderAvail odaAvail : Bool)
    (blenderResult odaResult : Option String)
    (input_file ext handler : String) : OrchestratorResult :=
  if handler = "freecad" then ⟨some input_file, false, []⟩
  else if handler = "blender" then
    if blenderAvail then
      match blenderResult with
      | some c => ⟨some c, false, [.blenderConvert input_file "stl"]⟩
      | none => ⟨none, false, [.blenderConvert input_file "stl"]⟩
    else ⟨none, false, []⟩
  else if handler = "oda" then
    let primary : List Call :=
      if odaAvail then [.odaConvert input_file "dxf"] else []
    if odaAvail ∧ odaResult.isSome = true then
      ⟨odaResult, false, primary⟩
    else if ext = ".dxf" ∧ blenderAvail = true then
      ⟨blenderResult, false, primary ++ [.blenderConvert input_file "stl"]⟩
    else ⟨none, false, primary⟩
  else if handler = "online" then ⟨none, true, []⟩
  else ⟨none, false, []⟩

/-- Method `UniversalConverter.convert`: check the input exists, compute the
extension and handler exactly once, and route (the `if/elif` chain above,
with `ext` and `handler` the two local variables of the method). -/
def UniversalConverter.convert (fileExists blenderAvail odaAvail : Bool)
    (blenderResult odaResult : Option String) (input_file : String)
    (target_format : String := "step") : OrchestratorResult :=
  if fileExists then
    UniversalConverter.route blenderAvail odaAvail blenderResult odaResult
      input_file (lowerString (splitextExt input_file)) (get_handler input_file)
  else ⟨none, false, []⟩

/-- A backend call requested the format the source hard-codes: `stl` for
Blender, `dxf` for ODA. -/
def Call.usesFixedFormat : Call → Prop
  | .blenderConvert _ fmt => fmt = "stl"
  | .odaConvert _ fmt => fmt = "dxf"

/-- Two strings with the same character data are equal. -/
theorem stringDataInj {s t : String} (h : s.data = t.data) : s = t :=
  congrArg String.mk h

/-- Claim C7: the format classifier is a pure total function of the extension:
calling it twice on the same extension yields the same tag, every
extension absent from the static table yields `unknown`, every mapped
extension yields exactly its table entry, and `get_handler` is this
classifier applied to the lower-cased extension of the path. -/
theorem C7_classifier_total_pure :
    (∀ ext : String, classify ext = classify ext) ∧
    (∀ ext : String, List.lookup ext FORMAT_HANDLERS = none →
      classify ext = "unknown") ∧
    (∀ ext : String, List.lookup ext FORMAT_HANDLERS = some (classify ext) ∨
      classify ext = "unknown") ∧
    (∀ p : String, get_handler p = classify (lowerString (splitextExt p))) := by
  refine ⟨fun _ => rfl, fun ext h => ?_, fun ext => ?_, fun _ => rfl⟩
  · simp [classify, h]
  · cases h : List.lookup ext FORMAT_HANDLERS with
    | none => exact Or.inr (by simp [classify, h])
    | some v => exact Or.inl (by simp [classify, h])

/-- Witness for `C7`: the unmapped extension `.zzz` classifies as
`unknown`, by the second conjunct of the theorem at a discharged concrete
hypothesis. -/
theorem C7_classifier_total_pure_witness :
    classify ".zzz" = "unknown" :=
  C7_classifier_total_pure.2.1 ".zzz" (by decide)

/-- Counterexample to `C1` as stated: the ODA adapter reports success
(returns the output path) after a run whose exit status is `1`, because
the source checks only that the expected output file exists — the claim
that a zero exit status is also required fails for this adapter. -/
theorem C1_counterexample :
    (ODAConverter.convert "C:/oda.exe" true ⟨1, false, false⟩ (fun _ => true) 0
        "/job/plan.dwg" "dxf").1 = some "/tmp/oda_convert_0/plan.dxf" ∧
    (1 : Int) ≠ 0 := by
  constructor
  · rfl
  · decide

/-- Claim C1 amended: the Blender adapter reports success exactly when the
subprocess neither timed out nor raised, exited with status zero, and the
expected output exists; the ODA adapter reports success exactly when the
subprocess neither timed out nor raised and the expected output exists —
its exit status is never examined.  In every other case both adapters
return `None`. -/
theorem C1_amended_success_conditions :
    (∀ (bp sp tmp : String) (avail : Bool) (run : RunOutcome)
        (ex : String → Bool) (input fmt : String),
      (BlenderConverter.convert bp sp tmp avail run ex input fmt).1 ≠ none ↔
        avail = true ∧ run.timedOut = false ∧ run.raised = false ∧
        run.returncode = 0 ∧ ex (blenderOutputPath tmp input fmt) = true) ∧
    (∀ (op : String) (avail : Bool) (run : RunOutcome) (ex : String → Bool)
        (seq : Nat) (input fmt : String),
      (ODAConverter.convert op avail run ex seq input fmt).1 ≠ none ↔
        avail = true ∧ run.timedOut = false ∧ run.raised = false ∧
        ex (odaOutputPath seq input fmt) = true) := by
  constructor
  · intro bp sp tmp avail run ex input fmt
    rcases run with ⟨rc, t1, r1⟩
    cases avail <;> cases t1 <;> cases r1 <;>
      simp [BlenderConverter.convert] <;>
      split_ifs with h <;> simp_all
  · intro op avail run ex seq input fmt
    rcases run with ⟨rc, t1, r1⟩
    cases avail <;> cases t1 <;> cases r1 <;>
      simp [ODAConverter.convert] <;>
      split_ifs with h <;> simp_all

/-- Witness for `C1` amended: a concrete successful Blender run (exit 0,
output present) and a concrete ODA run with exit status 1 whose output
exists, both reported successful per the amended conditions. -/
theorem C1_amended_success_conditions_witness :
    (BlenderConverter.convert "b.exe" "s.py" "/tmp" true ⟨0, false, false⟩
        (fun _ => true) "/a/in.fbx" "stl").1 ≠ none ∧
    (ODAConverter.convert "C:/oda.exe" true ⟨1, false, false⟩ (fun _ => true) 3
        "/job/plan.dwg" "dxf").1 ≠ none :=
  ⟨(C1_amended_success_conditions.1 "b.exe" "s.py" "/tmp" true ⟨0, false, false⟩
      (fun _ => true) "/a/in.fbx" "stl").mpr ⟨rfl, rfl, rfl, rfl, rfl⟩,
   (C1_amended_success_conditions.2 "C:/oda.exe" true ⟨1, false, false⟩
      (fun _ => true) 3 "/job/plan.dwg" "dxf").mpr ⟨rfl, rfl, rfl, rfl⟩⟩

/-- Counterexample to `C2` as stated: with the caller-supplied option
`sewing=False` (exposed by the advanced conversion dialog),
`STLToSolidCommand.convert_mesh_to_solid` attempts solid classification
on the unsewn shape — the sewing pass is not performed for all
caller-supplied options. -/
theorem C2_counterexample :
    STLToSolidCommand.convert_mesh_to_solid true true true (fun _ => true) 0 1 false
      = some (.solid (Shape.fromMesh 1 0)) ∧
    Shape.isSewn (Shape.fromMesh 1 0) = false :=
  ⟨rfl, rfl⟩

/-- Unfolding lemma: with all oracles succeeding and sewing enabled, the
command-level promotion classifies the sewn shape. -/
theorem STLToSolid_eq_sewn (ok : Shape → Bool) (m : Nat) (tol : ℚ) :
    STLToSolidCommand.convert_mesh_to_solid true true true ok m tol true
      = (if ok (Shape.sewn (Shape.fromMesh tol m)) then
          some (.solid (Shape.sewn (Shape.fromMesh tol m)))
        else some (.shell (Shape.sewn (Shape.fromMesh tol m)))) := rfl

/-- Unfolding lemma: with sewing disabled, the command-level promotion
classifies the raw (unsewn) shape. -/
theorem STLToSolid_eq_unsewn (ok : Shape → Bool) (m : Nat) (tol : ℚ) :
    STLToSolidCommand.convert_mesh_to_solid true true true ok m tol false
      = (if ok (Shape.fromMesh tol m) then
          some (.solid (Shape.fromMesh tol m))
        else some (.shell (Shape.fromMesh tol m))) := rfl

/-- Unfolding lemma: the orchestrator-level promotion always classifies
the sewn shape built at tolerance `0.1`. -/
theorem mesh_to_solid_step_eq (ok : Shape → Bool) (m : Nat) :
    UniversalConverter.mesh_to_solid_step true true ok m
      = (if ok (Shape.sewn (Shape.fromMesh (1/10) m)) then
          some (.solid (Shape.sewn (Shape.fromMesh (1/10) m)))
        else some (.shell (Shape.sewn (Shape.fromMesh (1/10) m)))) := rfl

/-- Claim C2 amended: the internal mesh promotion of the orchestrator always
sews before solid classification; `STLToSolidCommand.convert_mesh_to_solid`
sews exactly when its `sewing` option is set, and that option (like the
tolerance) defaults to `True`.  With `sewing=False` classification is
attempted on the unsewn shape. -/
theorem C2_amended_sewing_policy :
    (∀ (a b c : Bool) (ok : Shape → Bool) (m : Nat),
      STLToSolidCommand.convert_mesh_to_solid a b c ok m
        = STLToSolidCommand.convert_mesh_to_solid a b c ok m (1/10) true) ∧
    (∀ (sewOk : Bool) (ok : Shape → Bool) (m : Nat) (tol : ℚ) (r : PromotionResult),
      STLToSolidCommand.convert_mesh_to_solid true true sewOk ok m tol true = some r →
        r.classifiedShape.isSewn = true) ∧
    (∀ (ok : Shape → Bool) (m : Nat) (tol : ℚ) (r : PromotionResult),
      STLToSolidCommand.convert_mesh_to_solid true true true ok m tol false = some r →
        r.classifiedShape.isSewn = false) ∧
    (∀ (ok : Shape → Bool) (m : Nat) (r : PromotionResult),
      UniversalConverter.mesh_to_solid_step true true ok m = some r →
        r.classifiedShape.isSewn = true) := by
  refine ⟨fun _ _ _ _ _ => rfl, ?_, ?_, ?_⟩
  · intro sewOk ok m tol r h
    cases sewOk
    · simp [STLToSolidCommand.convert_mesh_to_solid] at h
    · rw [STLToSolid_eq_sewn] at h
      split_ifs at h <;> (cases h; rfl)
  · intro ok m tol r h
    rw [STLToSolid_eq_unsewn] at h
    split_ifs at h <;> (cases h; rfl)
  · intro ok m r h
    rw [mesh_to_solid_step_eq] at h
    split_ifs at h <;> (cases h; rfl)

/-- Witness for `C2` amended: with sewing enabled (the default) the shape
classified is the sewn one, at a concrete solidification oracle. -/
theorem C2_amended_sewing_policy_witness :
    (PromotionResult.solid (Shape.sewn (Shape.fromMesh 1 0))).classifiedShape.isSewn = true :=
  C2_amended_sewing_policy.2.1 true (fun _ => true) 0 1
    (.solid (Shape.sewn (Shape.fromMesh 1 0))) rfl

/-- Counterexample to `C3` as stated: for `model.fbx` with the Blender
backend unavailable, `UniversalConverter.convert` returns `None` (a
failure) and produces no manual-conversion instructions — the outcome is
`Failed`, not `ManualRequired`. -/
theorem C3_counterexample :
    (UniversalConverter.convert true false true none none "model.fbx" "step").result
      = none ∧
    (UniversalConverter.convert true false true none none "model.fbx" "step").manualInstructions
      = false := by
  constructor <;> rfl

/-- Claim C3 amended: for inputs routed to the Blender backend while it is
unavailable, the orchestrator returns `None` with no backend call and no
manual instructions (a plain failure); manual-conversion instructions are
produced exactly for the online-tier formats. -/
theorem C3_amended_fbx_unavailable_fails :
    ∀ (oa : Bool) (br orr : Option String) (input tf : String),
      (get_handler input = "blender" →
        UniversalConverter.convert true false oa br orr input tf
          = ⟨none, false, []⟩) ∧
      (get_handler input = "online" →
        UniversalConverter.convert true false oa br orr input tf
          = ⟨none, true, []⟩) := by
  intro oa br orr input tf
  constructor <;> intro h <;>
    simp [UniversalConverter.convert, UniversalConverter.route, h]

/-- Witness for `C3` amended: at the concrete inputs `model.fbx`
(Blender-routed) and `assembly.sldprt` (online-tier), with the handler
hypotheses discharged by evaluation. -/
theorem C3_amended_fbx_unavailable_fails_witness :
    UniversalConverter.convert true false true none none "model.fbx" "step"
      = ⟨none, false, []⟩ ∧
    UniversalConverter.convert true false true none none "assembly.sldprt" "step"
      = ⟨none, true, []⟩ :=
  ⟨(C3_amended_fbx_unavailable_fails true none none "model.fbx" "step").1 (by decide),
   (C3_amended_fbx_unavailable_fails true none none "assembly.sldprt" "step").2 (by decide)⟩

/-- Claim C4: when the mesh imports, the shape builds and the sewing pass
succeeds but `Part.makeSolid` fails on the sewn shape, both promotion
routines catch the kernel-level error and return the sewn shell as the
result — they do not raise out of the promotion step and do not turn
solid-classification failure into a failed outcome. -/
theorem C4_promotion_degrades_to_shell :
    ∀ (ok : Shape → Bool) (m : Nat) (tol : ℚ),
      (ok (Shape.sewn (Shape.fromMesh tol m)) = false →
        STLToSolidCommand.convert_mesh_to_solid true true true ok m tol true
          = some (.shell (Shape.sewn (Shape.fromMesh tol m)))) ∧
      (ok (Shape.sewn (Shape.fromMesh (1/10) m)) = false →
        UniversalConverter.mesh_to_solid_step true true ok m
          = some (.shell (Shape.sewn (Shape.fromMesh (1/10) m)))) := by
  intro ok m tol
  constructor <;> intro h
  · rw [STLToSolid_eq_sewn, h]
    simp
  · rw [mesh_to_solid_step_eq, h]
    simp

/-- Witness for `C4`: a concrete oracle on which `Part.makeSolid` always
fails yields the sewn shell from both promotion routines. -/
theorem C4_promotion_degrades_to_shell_witness :
    STLToSolidCommand.convert_mesh_to_solid true true true (fun _ => false) 0 1 true
      = some (.shell (Shape.sewn (Shape.fromMesh 1 0))) ∧
    UniversalConverter.mesh_to_solid_step true true (fun _ => false) 0
      = some (.shell (Shape.sewn (Shape.fromMesh (1/10) 0))) :=
  ⟨(C4_promotion_degrades_to_shell (fun _ => false) 0 1).1 rfl,
   (C4_promotion_degrades_to_shell (fun _ => false) 0 1).2 rfl⟩

/-- Route lemma: with the Blender probe false, no branch of the routing
chain ever records a Blender `convert` call. -/
theorem route_no_blender_when_unavailable (oa : Bool) (br orr : Option String)
    (input ext handler f g : String) :
    Call.blenderConvert f g ∉
      (UniversalConverter.route false oa br orr input ext handler).calls := by
  unfold UniversalConverter.route
  cases br <;> cases oa <;> split_ifs <;> simp_all

/-- Route lemma: with the ODA probe false, no branch of the routing chain
ever records an ODA `convert` call. -/
theorem route_no_oda_when_unavailable (ba : Bool) (br orr : Option String)
    (input ext handler f g : String) :
    Call.odaConvert f g ∉
      (UniversalConverter.route ba false br orr input ext handler).calls := by
  unfold UniversalConverter.route
  cases br <;> cases ba <;> split_ifs <;> simp_all

/-- Route lemma: an `oda`-handled `.dxf` input with ODA unavailable and
Blender available is retried through Blender. -/
theorem route_dxf_fallback (br orr : Option String) (input : String) :
    Call.blenderConvert input "stl" ∈
      (UniversalConverter.route true false br orr input ".dxf" "oda").calls := by
  cases br <;> simp [UniversalConverter.route]

/-- Route lemma: every backend call recorded by the routing chain
requests the hard-coded format. -/
theorem route_calls_fixed (ba oa : Bool) (br orr : Option String)
    (input ext handler : String) :
    ∀ c ∈ (UniversalConverter.route ba oa br orr input ext handler).calls,
      c.usesFixedFormat := by
  intro c hc
  cases c <;>
    (unfold UniversalConverter.route at hc
     cases br <;> cases ba <;> cases oa <;> split_ifs at hc <;>
       simp_all [Call.usesFixedFormat])

/-- Claim C5: the orchestrator never calls the `convert` of a backend whose
availability probe is false, and for `.dxf` inputs routed
to the unavailable ODA backend the Blender secondary is attempted
instead. -/
theorem C5_probe_gates_convert :
    (∀ (fe oa : Bool) (br orr : Option String) (input tf f g : String),
      Call.blenderConvert f g ∉
        (UniversalConverter.convert fe false oa br orr input tf).calls) ∧
    (∀ (fe ba : Bool) (br orr : Option String) (input tf f g : String),
      Call.odaConvert f g ∉
        (UniversalConverter.convert fe ba false br orr input tf).calls) ∧
    (∀ (br orr : Option String) (input tf : String),
      get_handler input = "oda" → lowerString (splitextExt input) = ".dxf" →
        Call.blenderConvert input "stl" ∈
          (UniversalConverter.convert true true false br orr input tf).calls) := by
  refine ⟨?_, ?_, ?_⟩
  · intro fe oa br orr input tf f g
    cases fe
    · simp [UniversalConverter.convert]
    · simpa [UniversalConverter.convert] using
        route_no_blender_when_unavailable oa br orr input
          (lowerString (splitextExt input)) (get_handler input) f g
  · intro fe ba br orr input tf f g
    cases fe
    · simp [UniversalConverter.convert]
    · simpa [UniversalConverter.convert] using
        route_no_oda_when_unavailable ba br orr input
          (lowerString (splitextExt input)) (get_handler input) f g
  · intro br orr input tf h1 h2
    have h := route_dxf_fallback br orr input
    rw [← h1, ← h2] at h
    simpa [UniversalConverter.convert] using h

/-- Witness for `C5`: with Blender unavailable no Blender call is made for
`model.fbx`; with ODA unavailable and Blender available, converting
`plan.dxf` attempts the Blender secondary. -/
theorem C5_probe_gates_convert_witness :
    (Call.blenderConvert "model.fbx" "stl" ∉
      (UniversalConverter.convert true false true none none "model.fbx" "step").calls) ∧
    (Call.odaConvert "plan.dxf" "dxf" ∉
      (UniversalConverter.convert true true false none none "plan.dxf" "step").calls) ∧
    (Call.blenderConvert "plan.dxf" "stl" ∈
      (UniversalConverter.convert true true false none none "plan.dxf" "step").calls) :=
  ⟨C5_probe_gates_convert.1 true true none none "model.fbx" "step" "model.fbx" "stl",
   C5_probe_gates_convert.2.1 true true none none "plan.dxf" "step" "plan.dxf" "dxf",
   C5_probe_gates_convert.2.2 none none "plan.dxf" "step" (by decide) (by decide)⟩

/-- Claim C10: the `target_format` argument of `UniversalConverter.convert`
is ignored — the result is identical for any two requested formats — and
every backend call the orchestrator makes requests the hard-coded format
(`stl` via Blender, `dxf` via ODA). -/
theorem C10_target_format_ignored :
    (∀ (fe ba oa : Bool) (br orr : Option String) (input t1 t2 : String),
      UniversalConverter.convert fe ba oa br orr input t1
        = UniversalConverter.convert fe ba oa br orr input t2) ∧
    (∀ (fe ba oa : Bool) (br orr : Option String) (input tf : String)
        (c : Call),
      c ∈ (UniversalConverter.convert fe ba oa br orr input tf).calls →
        c.usesFixedFormat) := by
  constructor
  · intro fe ba oa br orr input t1 t2
    rfl
  · intro fe ba oa br orr input tf c hc
    cases fe
    · simp [UniversalConverter.convert] at hc
    · exact route_calls_fixed ba oa br orr input
        (lowerString (splitextExt input)) (get_handler input) c
        (by simpa [UniversalConverter.convert] using hc)

/-- Witness for `C10`: the Blender call made for `model.fbx` requested
`stl`, via the theorem at a concrete membership. -/
theorem C10_target_format_ignored_witness :
    (Call.blenderConvert "model.fbx" "stl").usesFixedFormat :=
  C10_target_format_ignored.2 true true true (some "/tmp/out.stl") none
    "model.fbx" "step" (Call.blenderConvert "model.fbx" "stl") (by decide)

/-- Counterexample to `C6` as stated: converting the same ODA input twice
(successive `mkdtemp` scratch directories) yields artifacts at two
distinct paths — the output path is not deterministically re-derived and
the artifact of the earlier run is left stale rather than overwritten. -/
theorem C6_counterexample :
    (ODAConverter.convert "C:/oda.exe" true ⟨0, false, false⟩ (fun _ => true) 0
        "/job/plan.dwg" "dxf").1 = some "/tmp/oda_convert_0/plan.dxf" ∧
    (ODAConverter.convert "C:/oda.exe" true ⟨0, false, false⟩ (fun _ => true) 1
        "/job/plan.dwg" "dxf").1 = some "/tmp/oda_convert_1/plan.dxf" ∧
    ("/tmp/oda_convert_0/plan.dxf" : String) ≠ "/tmp/oda_convert_1/plan.dxf" :=
  ⟨rfl, rfl, by decide⟩

/-- If two ODA scratch paths coincide then the scratch-directory numbers
printed into them coincide. -/
theorem odaOutputPath_seq_inj (seq1 seq2 : Nat) (input fmt : String)
    (h : odaOutputPath seq1 input fmt = odaOutputPath seq2 input fmt) :
    toString seq1 = toString seq2 := by
  apply stringDataInj
  have hd := congrArg String.data h
  simp only [odaOutputPath, odaScratchDir, String.data_append,
    List.append_assoc] at hd
  exact List.append_cancel_right (List.append_cancel_left hd)

/-- Claim C6 amended: a successful Blender conversion always returns the
deterministic scratch path derived from the temp directory, input stem
and format (so a re-run overwrites it); a successful ODA conversion
returns a path inside the fresh per-invocation `mkdtemp` directory, and
two invocations with distinct scratch directories yield distinct output
paths, leaving the earlier artifact stale. -/
theorem C6_amended_scratch_paths :
    (∀ (bp sp tmp : String) (avail : Bool) (run : RunOutcome)
        (ex : String → Bool) (input fmt p : String),
      (BlenderConverter.convert bp sp tmp avail run ex input fmt).1 = some p →
        p = blenderOutputPath tmp input fmt) ∧
    (∀ (op : String) (avail : Bool) (run : RunOutcome) (ex : String → Bool)
        (seq : Nat) (input fmt p : String),
      (ODAConverter.convert op avail run ex seq input fmt).1 = some p →
        p = odaOutputPath seq input fmt) ∧
    (∀ (seq1 seq2 : Nat) (input fmt : String),
      toString seq1 ≠ toString seq2 →
        odaOutputPath seq1 input fmt ≠ odaOutputPath seq2 input fmt) := by
  refine ⟨?_, ?_, ?_⟩
  · intro bp sp tmp avail run ex input fmt p h
    rcases run with ⟨rc, t1, r1⟩
    cases avail <;> cases t1 <;> cases r1 <;>
      simp [BlenderConverter.convert] at h <;>
      split_ifs at h <;> simp_all
  · intro op avail run ex seq input fmt p h
    rcases run with ⟨rc, t1, r1⟩
    cases avail <;> cases t1 <;> cases r1 <;>
      simp [ODAConverter.convert] at h <;>
      split_ifs at h <;> simp_all
  · intro seq1 seq2 input fmt hne heq
    exact hne (odaOutputPath_seq_inj seq1 seq2 input fmt heq)

/-- Witness for `C6` amended: a concrete successful ODA run returns the
path inside its scratch directory, and scratch directories 0 and 1 give
distinct paths for the same input. -/
theorem C6_amended_scratch_paths_witness :
    ("/tmp/oda_convert_5/plan.dxf" : String) = odaOutputPath 5 "/job/plan.dwg" "dxf" ∧
    odaOutputPath 0 "/job/plan.dwg" "dxf" ≠ odaOutputPath 1 "/job/plan.dwg" "dxf" :=
  ⟨C6_amended_scratch_paths.2.1 "C:/oda.exe" true ⟨0, false, false⟩
      (fun _ => true) 5 "/job/plan.dwg" "dxf" "/tmp/oda_convert_5/plan.dxf" rfl,
   C6_amended_scratch_paths.2.2 0 1 "/job/plan.dwg" "dxf" (by decide)⟩

/-- Every subprocess invocation logged by the CAD Exchanger loop carries
the 120-second timeout. -/
theorem tryTools_timeout_120 (te : String → Bool) (run : String → RunOutcome)
    (ex : String → Bool) (input : String) :
    ∀ l : List String,
      ∀ inv ∈ (ParasolidConverter.tryTools te run ex input l).2,
        inv.timeoutSeconds = 120 := by
  intro l
  induction l with
  | nil => simp [ParasolidConverter.tryTools]
  | cons p rest ih =>
    intro inv hinv
    unfold ParasolidConverter.tryTools at hinv
    by_cases c1 : te p = true
    · rw [if_pos c1] at hinv
      by_cases c2 : (run p).timedOut = true ∨ (run p).raised = true
      · rw [if_pos c2] at hinv
        rcases List.mem_cons.mp hinv with rfl | hm
        · rfl
        · exact ih inv hm
      · rw [if_neg c2] at hinv
        by_cases c3 : ex (replaceAll input ".x_t" ".step") = true
        · rw [if_pos c3] at hinv
          rw [List.mem_singleton.mp hinv]
        · rw [if_neg c3] at hinv
          rcases List.mem_cons.mp hinv with rfl | hm
          · rfl
          · exact ih inv hm
    · rw [if_neg c1] at hinv
      exact ih inv hinv

/-- If the run of every candidate tool times out, the CAD Exchanger loop
returns `None`. -/
theorem tryTools_allTimedOut (te : String → Bool) (run : String → RunOutcome)
    (ex : String → Bool) (input : String)
    (h : ∀ p, (run p).timedOut = true) :
    ∀ l : List String, (ParasolidConverter.tryTools te run ex input l).1 = none := by
  intro l
  induction l with
  | nil => rfl
  | cons p rest ih =>
    unfold ParasolidConverter.tryTools
    by_cases c1 : te p = true
    · rw [if_pos c1, if_pos (Or.inl (h p))]
      exact ih
    · rw [if_neg c1]
      exact ih

/-- Claim C8: every backend subprocess is invoked with its bounded
tool-specific timeout — 300 s for Blender, 120 s for ODA, 120 s for the
CAD Exchanger candidates — and a timed-out run yields a failure (`None`)
rather than a hang or an uncaught exception. -/
theorem C8_timeouts_bounded :
    (∀ (bp sp tmp : String) (avail : Bool) (run : RunOutcome)
        (ex : String → Bool) (input fmt : String),
      (∀ inv ∈ (BlenderConverter.convert bp sp tmp avail run ex input fmt).2,
        inv.timeoutSeconds = 300) ∧
      (run.timedOut = true →
        (BlenderConverter.convert bp sp tmp avail run ex input fmt).1 = none)) ∧
    (∀ (op : String) (avail : Bool) (run : RunOutcome) (ex : String → Bool)
        (seq : Nat) (input fmt : String),
      (∀ inv ∈ (ODAConverter.convert op avail run ex seq input fmt).2,
        inv.timeoutSeconds = 120) ∧
      (run.timedOut = true →
        (ODAConverter.convert op avail run ex seq input fmt).1 = none)) ∧
    (∀ (te : String → Bool) (run : String → RunOutcome) (ex : String → Bool)
        (input : String),
      (∀ inv ∈ (ParasolidConverter.convert_via_external_tool te run ex input).2,
        inv.timeoutSeconds = 120) ∧
      ((∀ p, (run p).timedOut = true) →
        (ParasolidConverter.convert_via_external_tool te run ex input).1 = none)) := by
  refine ⟨?_, ?_, ?_⟩
  · intro bp sp tmp avail run ex input fmt
    rcases run with ⟨rc, t1, r1⟩
    constructor
    · intro inv hinv
      cases avail <;> cases t1 <;> cases r1 <;>
        simp_all [BlenderConverter.convert] <;>
        split_ifs at hinv <;> simp_all
    · intro ht
      cases avail <;> simp_all [BlenderConverter.convert]
  · intro op avail run ex seq input fmt
    rcases run with ⟨rc, t1, r1⟩
    constructor
    · intro inv hinv
      cases avail <;> cases t1 <;> cases r1 <;>
        simp_all [ODAConverter.convert] <;>
        split_ifs at hinv <;> simp_all
    · intro ht
      cases avail <;> simp_all [ODAConverter.convert]
  · intro te run ex input
    exact ⟨tryTools_timeout_120 te run ex input cad_exchanger_paths,
      fun h => tryTools_allTimedOut te run ex input h cad_exchanger_paths⟩

/-- Witness for `C8`: at a concrete timed-out run every adapter returns
`None`, and the single Blender invocation logged carries the 300-second
budget. -/
theorem C8_timeouts_bounded_witness :
    (BlenderConverter.convert "b.exe" "s.py" "/tmp" true ⟨0, true, false⟩
      (fun _ => true) "/a/in.fbx" "stl").1 = none ∧
    (ODAConverter.convert "C:/oda.exe" true ⟨0, true, false⟩ (fun _ => true) 0
      "/job/plan.dwg" "dxf").1 = none ∧
    (ParasolidConverter.convert_via_external_tool (fun _ => true)
      (fun _ => ⟨0, true, false⟩) (fun _ => true) "/job/part.x_t").1 = none :=
  ⟨(C8_timeouts_bounded.1 "b.exe" "s.py" "/tmp" true ⟨0, true, false⟩
      (fun _ => true) "/a/in.fbx" "stl").2 rfl,
   (C8_timeouts_bounded.2.1 "C:/oda.exe" true ⟨0, true, false⟩ (fun _ => true) 0
      "/job/plan.dwg" "dxf").2 rfl,
   (C8_timeouts_bounded.2.2 (fun _ => true) (fun _ => ⟨0, true, false⟩)
      (fun _ => true) "/job/part.x_t").2 (fun _ => rfl)⟩

/-- Counterexample to `C9` as stated: the programmatic promotion entry
point accepts the tolerance `-1`, which lies outside `(0, 10]`, and
proceeds to a classification result instead of rejecting it. -/
theorem C9_counterexample :
    STLToSolidCommand.convert_mesh_to_solid true true true (fun _ => true) 0 (-1) true
      = some (.solid (Shape.sewn (Shape.fromMesh (-1) 0))) ∧
    ¬ ((0 : ℚ) < -1 ∧ (-1 : ℚ) ≤ 10) := by
  refine ⟨rfl, fun h => absurd h.1 (by norm_num)⟩

/-- Claim C9 amended: the tolerance defaults to `0.1` (and sewing to `True`);
the spin box of the advanced dialog clamps values into `[0.001, 10]`; the
programmatic entry point itself performs no range validation — it
proceeds for every tolerance value. -/
theorem C9_amended_tolerance_policy :
    (∀ (a b c : Bool) (ok : Shape → Bool) (m : Nat),
      STLToSolidCommand.convert_mesh_to_solid a b c ok m
        = STLToSolidCommand.convert_mesh_to_solid a b c ok m (1/10) true) ∧
    (∀ x : ℚ, 1/1000 ≤ tolerance_spin_clamp x ∧ tolerance_spin_clamp x ≤ 10) ∧
    (∀ (ok : Shape → Bool) (m : Nat) (tol : ℚ) (s : Bool),
      (STLToSolidCommand.convert_mesh_to_solid true true true ok m tol s).isSome
        = true) := by
  refine ⟨fun _ _ _ _ _ => rfl,
    fun x => ⟨le_max_left _ _, max_le (by norm_num) (min_le_left _ _)⟩, ?_⟩
  intro ok m tol s
  cases s
  · rw [STLToSolid_eq_unsewn]
    split_ifs <;> rfl
  · rw [STLToSolid_eq_sewn]
    split_ifs <;> rfl

/-- Witness for `C9` amended: the clamp bounds at the concrete
out-of-range value `50`. -/
theorem C9_amended_tolerance_policy_witness :
    1/1000 ≤ tolerance_spin_clamp 50 ∧ tolerance_spin_clamp 50 ≤ 10 :=
  C9_amended_tolerance_policy.2.1 50
